import Mathlib

/-!
Shallow embedding of the desktop window-layer subsystem of MyWallpapers/app
(src/src-tauri/src/window_layer.rs and src/hook-dll/src/lib.rs).

Modelling conventions:
* Window handles (HWND / HHOOK, Rust `isize`) are `Int`; the null handle is `0`
  (`HWND::is_invalid` in the source tests for null).
* `u32` values (messages, timestamps, mouseData, WPARAM payload fields) are `Nat`
  with explicit `% 2^k` where the source truncates.
* Rust integer casts are made explicit: `as i16 as u16` is `toU16`,
  `as u16 ... as i16 as i32` is `sext16`, `as u32` on an `i32` is `i32ToU32`.
* OS queries made inside the hook callback (`WindowFromPoint` + `is_over_desktop`,
  `ScreenToClient`, `IsWindowVisible`, `GetAsyncKeyState`) are environment inputs,
  collected per event in `HitEnv`.  `ScreenToClient hwnd pt` subtracts the
  screen-space origin of the window's client area, so the environment carries the
  two client-area origins the hook queries.
* Side effects (`PostMessageW`, `SendMessageTimeoutW`, `ShowWindow`,
  `UnhookWindowsHookEx`, renderer input-injection calls) are returned as explicit
  output values / traces.
-/

namespace WindowLayer

/-! ## Message and key-state constants (window_layer.rs:569-583, hook wparam values) -/

def WM_MOUSEMOVE : Nat := 0x0200
def WM_LBUTTONDOWN : Nat := 0x0201
def WM_LBUTTONUP : Nat := 0x0202
def WM_LBUTTONDBLCLK : Nat := 0x0203
def WM_RBUTTONDOWN : Nat := 0x0204
def WM_RBUTTONUP : Nat := 0x0205
def WM_MBUTTONDOWN : Nat := 0x0207
def WM_MBUTTONUP : Nat := 0x0208
def WM_MOUSEWHEEL : Nat := 0x020A
def WM_MOUSEHWHEEL : Nat := 0x020E

/-- `kind` codes passed to the renderer (the `MOUSE_*` i32 constants). -/
def MOUSE_MOVE : Int := 0x0200
def MOUSE_LDOWN : Int := 0x0201
def MOUSE_LUP : Int := 0x0202
def MOUSE_RDOWN : Int := 0x0204
def MOUSE_RUP : Int := 0x0205
def MOUSE_MDOWN : Int := 0x0207
def MOUSE_MUP : Int := 0x0208
def MOUSE_WHEEL : Int := 0x020A
def MOUSE_HWHEEL : Int := 0x020E

def MK_NONE : Int := 0x0
def MK_LBUTTON : Int := 0x0001
def MK_RBUTTON : Int := 0x0002
def MK_MBUTTON : Int := 0x0010

/-- Private application messages `0x8000+N` (window_layer.rs:602-603). -/
def WM_MWP_SETBOUNDS : Nat := 0x8000 + 43
def WM_MWP_MOUSE : Nat := 0x8000 + 42

/-- `WM_WTSSESSION_CHANGE` and its lock/unlock wparam codes (window_layer.rs:682-684). -/
def WM_WTSSESSION_CHANGE : Nat := 0x02B1
def WTS_SESSION_LOCK : Nat := 0x7
def WTS_SESSION_UNLOCK : Nat := 0x8

/-! ## Integer cast helpers -/

/-- Rust cast chain `x as i16 as u16` on an `i32`: low 16 bits, unsigned. -/
def toU16 (x : Int) : Nat := (x % 65536).toNat

/-- Rust cast chain `(n : u16-sized) as i16 as i32`: sign-extend the low 16 bits. -/
def sext16 (n : Nat) : Int :=
  if n % 65536 < 32768 then (n % 65536 : Int) else (n % 65536 : Int) - 65536

/-- Rust cast `z as u32` on an `i32`: two's-complement reinterpretation. -/
def i32ToU32 (z : Int) : Nat := (z % 4294967296).toNat

/-! ## Relay message bit-packing (`post_mouse`, window_layer.rs:633-649) -/

/-- WPARAM packing: `(kind as u16) | ((vk as u16) << 16) | ((data as usize) << 32)`. -/
def packWParam (kind vk : Int) (data : Nat) : Nat :=
  toU16 kind + toU16 vk * 65536 + (data % 4294967296) * 4294967296

/-- LPARAM packing: `(x as i16 as u16 as u32) | ((y as i16 as u16 as u32) << 16)`. -/
def packLParam (x y : Int) : Nat :=
  toU16 x + toU16 y * 65536

/-- `(wp.0 & 0xFFFF) as i32` (window_layer.rs:667). -/
def unpackKind (wp : Nat) : Int := (wp % 65536 : Nat)

/-- `((wp.0 >> 16) & 0xFFFF) as i32` (window_layer.rs:668). -/
def unpackVk (wp : Nat) : Int := (wp / 65536 % 65536 : Nat)

/-- `((wp.0 >> 32) & 0xFFFFFFFF) as u32` (window_layer.rs:669). -/
def unpackData (wp : Nat) : Nat := wp / 4294967296 % 4294967296

/-- `(lp.0 & 0xFFFF) as i16 as i32` (window_layer.rs:670). -/
def unpackX (lp : Nat) : Int := sext16 (lp % 65536)

/-- `((lp.0 >> 16) & 0xFFFF) as i16 as i32` (window_layer.rs:671). -/
def unpackY (lp : Nat) : Int := sext16 (lp / 65536 % 65536)

/-- `post_mouse` (window_layer.rs:633-649): posts `WM_MWP_MOUSE` with the packed
pair to the dispatch window, or does nothing when no dispatch window exists.
The returned value is the posted `(wparam, lparam)` pair. -/
def post_mouse (dispatchHwnd : Int) (kind vk : Int) (data : Nat) (x y : Int) :
    Option (Nat × Nat) :=
  if dispatchHwnd = 0 then none
  else some (packWParam kind vk data, packLParam x y)

/-! ## Hook state and per-event environment -/

/-- The module-level atomics read/written by the hook callback
(window_layer.rs:585-600, 9, 13, plus the `LAST_DOWN_*` statics of
`hook_proc`, window_layer.rs:949-954). -/
structure HookState where
  webviewHwnd : Int
  syslistviewHwnd : Int
  dispatchHwnd : Int
  dragVk : Int
  sessionActive : Bool
  dblclickTime : Nat
  dblclickCx : Int
  dblclickCy : Int
  lastDownTime : Nat
  lastDownX : Int
  lastDownY : Int
deriving DecidableEq

/-- One low-level mouse event: the hook's `wparam` (message id) together with the
`MSLLHOOKSTRUCT` fields the callback reads (window_layer.rs:916, 923, 956). -/
structure MouseEvent where
  msg : Nat
  ptX : Int
  ptY : Int
  mouseData : Nat
  time : Nat
deriving DecidableEq

/-- Answers of the OS queries one `hook_proc` invocation performs.
`overDesktop` is the result of `is_over_desktop (WindowFromPoint pt)`
(window_layer.rs:772-828): a hit-test made of cached-handle equality checks and
zero-allocation class-name lookups, modelled as an oracle bit since every input
to it is an OS query.  `wvOriginX/Y` and `slvOriginX/Y` are the screen-space
client-area origins used by the two `ScreenToClient` calls; the async bits are
the `GetAsyncKeyState` reads at window_layer.rs:977-996. -/
structure HitEnv where
  overDesktop : Bool
  wvOriginX : Int
  wvOriginY : Int
  slvVisible : Bool
  slvOriginX : Int
  slvOriginY : Int
  asyncL : Bool
  asyncR : Bool
  asyncM : Bool
  asyncShift : Bool
  asyncCtrl : Bool
deriving DecidableEq

/-- Result of a hook callback: the source returns
`CallNextHookEx(..)` (pass the event on) on every path; returning a nonzero
LRESULT without chaining would consume the event. -/
inductive HookResult where
  | callNext
  | consumed (code : Int)
deriving DecidableEq

/-- Observable effects of one `hook_proc` invocation: the optional relay post
(`WM_MWP_MOUSE` wparam/lparam to the dispatch window), the optional post to
the `SysListView32` icon layer (`(message, wparam, lparam)`), and the return
value. -/
structure HookOutput where
  relayPost : Option (Nat × Nat)
  slvPost : Option (Nat × Nat × Nat)
  result : HookResult
deriving DecidableEq

/-! ## Event forwarding to the renderer relay (`forward`, window_layer.rs:830-880) -/

/-- `forward`: translates the hook message into a relay post and maintains the
`DRAG_VK` button mask.  Returns `(new DRAG_VK, optional relay post)`. -/
def forward (dragVk dispatchHwnd : Int) (msg mouseData : Nat) (cx cy : Int) :
    Int × Option (Nat × Nat) :=
  if msg = WM_MOUSEMOVE then
    (dragVk, post_mouse dispatchHwnd MOUSE_MOVE dragVk 0 cx cy)
  else if msg = WM_LBUTTONDOWN then
    (MK_LBUTTON, post_mouse dispatchHwnd MOUSE_LDOWN MK_LBUTTON 0 cx cy)
  else if msg = WM_LBUTTONUP then
    (0, post_mouse dispatchHwnd MOUSE_LUP MK_NONE 0 cx cy)
  else if msg = WM_RBUTTONDOWN then
    (MK_RBUTTON, post_mouse dispatchHwnd MOUSE_RDOWN MK_RBUTTON 0 cx cy)
  else if msg = WM_RBUTTONUP then
    (0, post_mouse dispatchHwnd MOUSE_RUP MK_NONE 0 cx cy)
  else if msg = WM_MBUTTONDOWN then
    (MK_MBUTTON, post_mouse dispatchHwnd MOUSE_MDOWN MK_MBUTTON 0 cx cy)
  else if msg = WM_MBUTTONUP then
    (0, post_mouse dispatchHwnd MOUSE_MUP MK_NONE 0 cx cy)
  else if msg = WM_MOUSEWHEEL ∨ msg = WM_MOUSEHWHEEL then
    (dragVk,
      post_mouse dispatchHwnd (if msg = WM_MOUSEWHEEL then MOUSE_WHEEL else MOUSE_HWHEEL)
        MK_NONE (i32ToU32 (sext16 (mouseData / 65536))) cx cy)
  else (dragVk, none)

/-- The message kinds `forward` recognizes (everything else posts nothing). -/
def forwardKind (msg : Nat) : Bool :=
  decide (msg = WM_MOUSEMOVE) || decide (msg = WM_LBUTTONDOWN) ||
  decide (msg = WM_LBUTTONUP) || decide (msg = WM_RBUTTONDOWN) ||
  decide (msg = WM_RBUTTONUP) || decide (msg = WM_MBUTTONDOWN) ||
  decide (msg = WM_MBUTTONUP) || decide (msg = WM_MOUSEWHEEL) ||
  decide (msg = WM_MOUSEHWHEEL)

/-! ## Icon-layer forwarding inside `hook_proc` (window_layer.rs:929-1005) -/

/-- The double-click synthesis for `SysListView32` (window_layer.rs:944-973):
on a left press, if `0 < dt ≤ DBLCLICK_TIME` and `|dx| ≤ DBLCLICK_CX` and
`|dy| ≤ DBLCLICK_CY` versus the remembered previous press, the outgoing
message becomes `WM_LBUTTONDBLCLK` and the remembered time is reset to 0;
otherwise the press is remembered.  Non-press messages go out unchanged.
`ev.time - s.lastDownTime` on `Nat` is exactly the source's `saturating_sub`. -/
def dblclickStep (s : HookState) (ev : MouseEvent) : HookState × Nat :=
  if ev.msg = WM_LBUTTONDOWN then
    let dt := ev.time - s.lastDownTime
    let dx := (ev.ptX - s.lastDownX).natAbs
    let dy := (ev.ptY - s.lastDownY).natAbs
    if 0 < dt ∧ dt ≤ s.dblclickTime ∧ (dx : Int) ≤ s.dblclickCx ∧ (dy : Int) ≤ s.dblclickCy then
      ({ s with lastDownTime := 0 }, WM_LBUTTONDBLCLK)
    else
      ({ s with lastDownTime := ev.time, lastDownX := ev.ptX, lastDownY := ev.ptY },
        WM_LBUTTONDOWN)
  else (s, ev.msg)

/-- The LPARAM posted to `SysListView32` (window_layer.rs:932-941): screen
coordinates for wheel messages, `ScreenToClient(slv, pt)` otherwise. -/
def slvLParam (ev : MouseEvent) (env : HitEnv) : Nat :=
  if ev.msg = WM_MOUSEWHEEL ∨ ev.msg = WM_MOUSEHWHEEL then
    packLParam ev.ptX ev.ptY
  else
    packLParam (ev.ptX - env.slvOriginX) (ev.ptY - env.slvOriginY)

/-- The MK_* key-state WPARAM built for `SysListView32`
(window_layer.rs:976-1003). -/
def slvWParam (outMsg : Nat) (env : HitEnv) (mouseData : Nat) : Nat :=
  let mk :=
    (if outMsg = WM_LBUTTONDOWN ∨ outMsg = WM_LBUTTONDBLCLK ∨ env.asyncL then 1 else 0) +
    (if outMsg = WM_RBUTTONDOWN ∨ env.asyncR then 2 else 0) +
    (if outMsg = WM_MBUTTONDOWN ∨ env.asyncM then 16 else 0) +
    (if env.asyncShift then 4 else 0) +
    (if env.asyncCtrl then 8 else 0)
  if outMsg = WM_MOUSEWHEEL ∨ outMsg = WM_MOUSEHWHEEL then
    (mouseData / 65536 % 65536) * 65536 + mk
  else mk

/-! ## The low-level mouse hook callback (`hook_proc`, window_layer.rs:896-1008) -/

/-- `hook_proc`: one invocation of the `WH_MOUSE_LL` callback.
Branch structure mirrors the source exactly:
1. `code < 0` or no webview handle: chain to the next hook, no effects.
2. Session inactive (`IS_SESSION_ACTIVE == false`): chain, no effects.
3. Cursor not over the desktop (`!is_over_desktop(WindowFromPoint(pt))`):
   chain, no effects.
4. Otherwise: `ScreenToClient(webview, pt)`, `forward` to the relay, then, when
   the `SysListView32` handle is set and visible, double-click synthesis and a
   `PostMessageW` to the icon layer; finally chain to the next hook.
The `DESKTOP_CORE_HWND` / `CHROME_RWHH` discovery caches written inside
`is_over_desktop` are not modelled; no claim depends on them. -/
def hook_proc (s : HookState) (code : Int) (ev : MouseEvent) (env : HitEnv) :
    HookState × HookOutput :=
  if code < 0 ∨ s.webviewHwnd = 0 then
    (s, ⟨none, none, .callNext⟩)
  else if s.sessionActive = false then
    (s, ⟨none, none, .callNext⟩)
  else if env.overDesktop = false then
    (s, ⟨none, none, .callNext⟩)
  else
    let fr := forward s.dragVk s.dispatchHwnd ev.msg ev.mouseData
        (ev.ptX - env.wvOriginX) (ev.ptY - env.wvOriginY)
    let s1 := { s with dragVk := fr.1 }
    if s1.syslistviewHwnd ≠ 0 ∧ env.slvVisible = true then
      let ds := dblclickStep s1 ev
      (ds.1, ⟨fr.2, some (ds.2, slvWParam ds.2 env ev.mouseData, slvLParam ev env),
        .callNext⟩)
    else
      (s1, ⟨fr.2, none, .callNext⟩)

/-- Run the hook over a sequence of events (one hook thread, serialized calls). -/
def runHook (s : HookState) : List (Int × MouseEvent × HitEnv) → HookState × List HookOutput
  | [] => (s, [])
  | (code, ev, env) :: rest =>
      let r := hook_proc s code ev env
      let rr := runHook r.1 rest
      (rr.1, r.2 :: rr.2)

/-- The sequence of messages posted to the icon layer by a run. -/
def slvMsgsOf (outs : List HookOutput) : List Nat :=
  outs.filterMap (fun o => o.slvPost.map (fun p => p.1))

/-! ## The dispatch relay window procedure (`dispatch_wnd_proc`, window_layer.rs:651-702) -/

/-- A call into the embedded renderer made by the relay: either a
`set_controller_bounds_raw` or a `send_mouse_input_raw`. -/
inductive RendererCall where
  | setBounds (w h : Int)
  | mouseInput (kind vk : Int) (data : Nat) (x y : Int)
deriving DecidableEq

/-- Window-procedure return: `LRESULT(0)` for handled messages, deferral to
`DefWindowProcW` otherwise. -/
inductive WndResult where
  | handled
  | defWindowProc
deriving DecidableEq

/-- Observable outcome of one `dispatch_wnd_proc` invocation. -/
structure DispatchOut where
  sessionActive : Bool
  calls : List RendererCall
  result : WndResult
deriving DecidableEq

/-- Rust cast `n as i32` on a `usize`/`isize` message parameter. -/
def sext32 (n : Nat) : Int :=
  if n % 4294967296 < 2147483648 then (n % 4294967296 : Int)
  else (n % 4294967296 : Int) - 4294967296

/-- `dispatch_wnd_proc`: the message-only relay window procedure.
* `WM_MWP_SETBOUNDS` calls `set_controller_bounds_raw(wp as i32, lp as i32)`
  when the composition-controller pointer is set; returns 0.
* `WM_MWP_MOUSE` unpacks the packed event; for button-down kinds a synthetic
  `MOUSE_MOVE` at the same coordinates precedes the event itself; returns 0.
* `WM_WTSSESSION_CHANGE` stores `IS_SESSION_ACTIVE := false` on
  `WTS_SESSION_LOCK` and `:= true` on `WTS_SESSION_UNLOCK`; returns 0.
* anything else goes to `DefWindowProcW`.
`sessionActive` is threaded in/out to model the `IS_SESSION_ACTIVE` atomic. -/
def dispatch_wnd_proc (sessionActive : Bool) (compPtr : Int) (msg wp lp : Nat) :
    DispatchOut :=
  if msg = WM_MWP_SETBOUNDS then
    { sessionActive := sessionActive
      calls := if compPtr ≠ 0 then [RendererCall.setBounds (sext32 wp) (sext32 lp)] else []
      result := .handled }
  else if msg = WM_MWP_MOUSE then
    { sessionActive := sessionActive
      calls :=
        if compPtr ≠ 0 then
          let kind := unpackKind wp
          let vk := unpackVk wp
          let data := unpackData wp
          let x := unpackX lp
          let y := unpackY lp
          (if kind = MOUSE_LDOWN ∨ kind = MOUSE_RDOWN ∨ kind = MOUSE_MDOWN then
            [RendererCall.mouseInput MOUSE_MOVE vk 0 x y]
          else []) ++ [RendererCall.mouseInput kind vk data x y]
        else []
      result := .handled }
  else if msg = WM_WTSSESSION_CHANGE then
    { sessionActive :=
        if wp = WTS_SESSION_LOCK then false
        else if wp = WTS_SESSION_UNLOCK then true
        else sessionActive
      calls := []
      result := .handled }
  else
    { sessionActive := sessionActive, calls := [], result := .defWindowProc }

/-! ## Desktop detection (`detect_desktop`, window_layer.rs:119-279) -/

/-- What the shell window hierarchy looks like to one container-search pass:
the two topologies the source probes.  `0` means "window not found". -/
structure ShellSnapshot where
  shellViewDirect : Int
  workerWDirect : Int
  enumSv : Int
  enumWorkerW : Int
deriving DecidableEq

/-- Environment for one `detect_desktop` run.  `shell k` is the hierarchy as
seen by the `k`-th container-search pass (the source performs exactly one pass,
so only `shell 1` is ever consulted). -/
structure DetectEnv where
  progman : Int
  explorerPid : Nat
  shell : Nat → ShellSnapshot
  syslistview : Int
  vWidth : Int
  vHeight : Int

/-- One `SendMessageTimeoutW` spawn signal sent to Progman. -/
structure SpawnMsg where
  msgId : Nat
  wparam : Nat
  lparam : Int
deriving DecidableEq

/-- Side-effect trace of a `detect_desktop` run. -/
structure DetectTrace where
  spawnMsgs : List SpawnMsg
  sleepsMs : List Nat
  searchAttempts : Nat
deriving DecidableEq

/-- `DesktopDetection` (window_layer.rs:110-117). -/
structure DesktopDetection where
  progman : Int
  explorerPid : Nat
  targetParent : Int
  syslistview : Int
  vWidth : Int
  vHeight : Int
deriving DecidableEq

/-- One container-search pass over the two supported shell topologies
(window_layer.rs:149-201): if `SHELLDLL_DefView` is a direct child of Progman
(Win11 24H2+ layout), the container candidate is the `WorkerW` child of
Progman; otherwise the `EnumWindows` fallback finds the `SHELLDLL_DefView`
host and its `WorkerW` sibling.  Returns `(target_parent, shell_for_slv)`. -/
def searchContainer (snap : ShellSnapshot) : Int × Int :=
  if snap.shellViewDirect ≠ 0 then (snap.workerWDirect, snap.shellViewDirect)
  else (snap.enumWorkerW, snap.enumSv)

/-- `detect_desktop` (window_layer.rs:119-279): fails only when Progman is
missing; sends exactly one `0x052C` spawn signal with parameters
`(0x0D, 1)`, sleeps 150ms once, performs exactly one container-search pass,
and falls back to Progman itself when that pass finds no `WorkerW`.
The `SysListView32` search runs only when a `SHELLDLL_DefView` was found. -/
def detect_desktop (env : DetectEnv) :
    Except String (DesktopDetection × DetectTrace) :=
  if env.progman = 0 then .error "Could not find Progman"
  else
    let trace : DetectTrace :=
      { spawnMsgs := [{ msgId := 0x052C, wparam := 0x0D, lparam := 1 }]
        sleepsMs := [150]
        searchAttempts := 1 }
    let sr := searchContainer (env.shell 1)
    let targetParent := if sr.1 = 0 then env.progman else sr.1
    .ok
      ({ progman := env.progman
         explorerPid := env.explorerPid
         targetParent := targetParent
         syslistview := if sr.2 ≠ 0 then env.syslistview else 0
         vWidth := env.vWidth
         vHeight := env.vHeight }, trace)

/-! ## Teardown (`restore_desktop_icons_and_unhook`, window_layer.rs:54-81) -/

/-- Observable state touched by teardown: the `ICONS_RESTORED` one-shot flag,
the two cached handles, and the OS-side facts the two syscalls change. -/
structure TeardownState where
  iconsRestored : Bool
  slvHwnd : Int
  hookHandle : Int
  iconLayerVisible : Bool
  hookInstalled : Bool
deriving DecidableEq

/-- A syscall performed by teardown. -/
inductive TeardownOp where
  | showIconLayer (hwnd : Int)
  | unhook (hook : Int)
deriving DecidableEq

/-- `restore_desktop_icons_and_unhook`: guarded by
`ICONS_RESTORED.swap(true)`; when the flag was clear, shows the icon list
control (if its handle is known) and removes the mouse hook (if installed). -/
def restore_desktop_icons_and_unhook (s : TeardownState) :
    TeardownState × List TeardownOp :=
  if s.iconsRestored then (s, [])
  else
    let s1 := { s with iconsRestored := true }
    let s2 := if s.slvHwnd ≠ 0 then { s1 with iconLayerVisible := true } else s1
    let ops1 := if s.slvHwnd ≠ 0 then [TeardownOp.showIconLayer s.slvHwnd] else []
    let s3 := if s.hookHandle ≠ 0 then { s2 with hookInstalled := false } else s2
    let ops2 := if s.hookHandle ≠ 0 then [TeardownOp.unhook s.hookHandle] else []
    (s3, ops1 ++ ops2)

/-! ## Leave-event corrector (`mouseleave_hook_proc`, hook-dll/src/lib.rs:29-54) -/

def WM_MOUSELEAVE : Nat := 0x02A3
def WM_NULL : Nat := 0x0000

/-- The mutable `MSG` fields the corrector reads/writes. -/
structure LeaveMsg where
  hwnd : Int
  message : Nat
deriving DecidableEq

/-- The two presence-only window properties on `msg.hwnd`:
`"MWP_T"` (monitored-surface marker) and `"MWP_E"` (intentional-leave marker). -/
structure WndProps where
  target : Bool
  explicitLeave : Bool
deriving DecidableEq

/-- `mouseleave_hook_proc`: the `WH_GETMESSAGE` hook inside the renderer
process.  For a `WM_MOUSELEAVE` aimed at a window carrying the target marker:
with the explicit-leave marker present, the message passes and the marker is
removed; without it, the message is rewritten to `WM_NULL`.  Unmarked windows
and other messages are untouched.  Every path chains to the next hook.
`lparamNull` models `lparam.0 == 0` (no `MSG` to inspect). -/
def mouseleave_hook_proc (code : Int) (lparamNull : Bool) (m : LeaveMsg)
    (props : WndProps) : LeaveMsg × WndProps × HookResult :=
  if 0 ≤ code ∧ lparamNull = false then
    if m.message = WM_MOUSELEAVE then
      if props.target then
        if props.explicitLeave then
          (m, { props with explicitLeave := false }, .callNext)
        else
          ({ m with message := WM_NULL }, props, .callNext)
      else (m, props, .callNext)
    else (m, props, .callNext)
  else (m, props, .callNext)

/-! ## Derived helpers and spec-transcribed claim statements

The `specClaim*` definitions below transcribe, in the embedding's vocabulary,
claims exactly as the specification states them, so that a counterexample
theorem can refute them; they are deliberately written from the spec's words,
unlike every definition above, which is translated from the source. -/

/-- Coordinates carried by a renderer call (`none` for bounds calls). -/
def callCoords : RendererCall → Option (Int × Int)
  | .mouseInput _ _ _ x y => some (x, y)
  | .setBounds _ _ => none

/-- A hook state that is fully set up and idle: webview, dispatch window and
session present, no drag, no remembered press, metrics at the common defaults
(`GetDoubleClickTime() = 500`, `SM_CXDOUBLECLK/2 = SM_CYDOUBLECLK/2 = 2`). -/
def readyState : HookState :=
  { webviewHwnd := 1, syslistviewHwnd := 0, dispatchHwnd := 1, dragVk := 0
    sessionActive := true, dblclickTime := 500, dblclickCx := 2, dblclickCy := 2
    lastDownTime := 0, lastDownX := 0, lastDownY := 0 }

/-- The renderer calls produced end-to-end for one mouse-move at screen point
`(sx, sy)` over a content surface whose client origin is `(ox, oy)`:
`hook_proc` forwards the event, and the relay dispatches the posted message. -/
def contentLocalDelivered (ox oy sx sy : Int) : List RendererCall :=
  let ev : MouseEvent := { msg := WM_MOUSEMOVE, ptX := sx, ptY := sy, mouseData := 0, time := 1000 }
  let env : HitEnv :=
    { overDesktop := true, wvOriginX := ox, wvOriginY := oy, slvVisible := false
      slvOriginX := 0, slvOriginY := 0, asyncL := false, asyncR := false
      asyncM := false, asyncShift := false, asyncCtrl := false }
  match (hook_proc readyState 0 ev env).2.relayPost with
  | some (wp, lp) => (dispatch_wnd_proc true 1 WM_MWP_MOUSE wp lp).calls
  | none => []

/-- Spec claim C1 (ownership invariance), as stated: every pointer event is
delivered to exactly one destination — never to both the content relay and the
icon layer in the same invocation. -/
def specClaimC1 : Prop :=
  ∀ (s : HookState) (code : Int) (ev : MouseEvent) (env : HitEnv),
    ¬((hook_proc s code ev env).2.relayPost.isSome = true ∧
      (hook_proc s code ev env).2.slvPost.isSome = true)

/-- Spec claim C2 (double-click fidelity), as stated: two left presses routed
to the icon layer, from a fresh press history, with inter-press time at most
the double-click time threshold and per-axis distances at most the per-axis
distance thresholds, yield one press then one double-click press. -/
def specClaimC2 : Prop :=
  ∀ (s : HookState) (e1 e2 : MouseEvent) (env : HitEnv),
    s.webviewHwnd ≠ 0 → s.sessionActive = true → s.syslistviewHwnd ≠ 0 →
    env.overDesktop = true → env.slvVisible = true →
    e1.msg = WM_LBUTTONDOWN → e2.msg = WM_LBUTTONDOWN →
    s.lastDownTime = 0 → s.dblclickTime < e1.time →
    e1.time ≤ e2.time → e2.time - e1.time ≤ s.dblclickTime →
    ((e2.ptX - e1.ptX).natAbs : Int) ≤ s.dblclickCx →
    ((e2.ptY - e1.ptY).natAbs : Int) ≤ s.dblclickCy →
    slvMsgsOf (runHook s [(0, e1, env), (0, e2, env)]).2 =
      [WM_LBUTTONDOWN, WM_LBUTTONDBLCLK]

/-- Spec claim C4 (retry bound), as stated: when the background container is
absent from the first four container-search attempts and present at the fifth,
detection succeeds with that container. -/
def specClaimC4 : Prop :=
  ∀ (env : DetectEnv) (c : Int), env.progman ≠ 0 → c ≠ 0 → c ≠ env.progman →
    (∀ k, 1 ≤ k → k ≤ 4 → (searchContainer (env.shell k)).1 = 0) →
    (searchContainer (env.shell 5)).1 = c →
    ∃ r t, detect_desktop env = Except.ok (r, t) ∧ r.targetParent = c

/-- Spec claim C5, as stated: every detection run sends the `0x052C` spawn
signal with all three parameter variants `(0x0D, 0)`, `(0x0D, 1)`, `(0, 0)`. -/
def specClaimC5 : Prop :=
  ∀ (env : DetectEnv) (r : DesktopDetection) (t : DetectTrace),
    detect_desktop env = Except.ok (r, t) →
    ({ msgId := 0x052C, wparam := 0x0D, lparam := 0 } : SpawnMsg) ∈ t.spawnMsgs ∧
    ({ msgId := 0x052C, wparam := 0x0D, lparam := 1 } : SpawnMsg) ∈ t.spawnMsgs ∧
    ({ msgId := 0x052C, wparam := 0, lparam := 0 } : SpawnMsg) ∈ t.spawnMsgs

/-- Spec claim C6 (coordinate translation), as stated: for any screen point
inside the surface bounds, the delivered content-local coordinates are exactly
`(sx - ox, sy - oy)`. -/
def specClaimC6 : Prop :=
  ∀ (ox oy w h sx sy : Int), 0 < w → 0 < h →
    ox ≤ sx → sx < ox + w → oy ≤ sy → sy < oy + h →
    contentLocalDelivered ox oy sx sy =
      [RendererCall.mouseInput MOUSE_MOVE 0 0 (sx - ox) (sy - oy)]

/-- A ready hook state whose `SysListView32` handle is known. -/
def hookReady : HookState := { readyState with syslistviewHwnd := 7 }

/-- Environment: cursor over the desktop, icon layer visible, origins at 0,
no modifier keys. -/
def envDesk : HitEnv := ⟨true, 0, 0, true, 0, 0, false, false, false, false, false⟩

def evPress : MouseEvent := ⟨WM_LBUTTONDOWN, 100, 100, 0, 5000⟩
def evRelA : MouseEvent := ⟨WM_LBUTTONUP, 100, 100, 0, 5100⟩
def evPressB : MouseEvent := ⟨WM_LBUTTONDOWN, 101, 101, 0, 5200⟩
def evRelB : MouseEvent := ⟨WM_LBUTTONUP, 101, 101, 0, 5300⟩
def evPressSame : MouseEvent := ⟨WM_LBUTTONDOWN, 101, 101, 0, 5000⟩
def evMove : MouseEvent := ⟨WM_MOUSEMOVE, 300, 200, 0, 1000⟩

/-- Environment where no container-search pass before the fifth sees a
`WorkerW`, and the fifth sees handle 77 (direct-child topology). -/
def detectEnvAbsent : DetectEnv :=
  { progman := 10, explorerPid := 4
    shell := fun k => if k = 5 then ⟨1, 77, 0, 0⟩ else ⟨0, 0, 0, 0⟩
    syslistview := 0, vWidth := 800, vHeight := 600 }

/-- Drag/press bookkeeping update of the hook state: the `DRAG_VK` store of
`forward` combined with the `LAST_DOWN_*` stores of the double-click logic. -/
def pressState (s : HookState) (vk : Int) (t : Nat) (x y : Int) : HookState :=
  { s with dragVk := vk, lastDownTime := t, lastDownX := x, lastDownY := y }

/-! # Theorems -/

/-! ## Arithmetic helper lemmas about the bit-packing -/

theorem sext16_toU16 (z : Int) (h1 : -32768 ≤ z) (h2 : z ≤ 32767) :
    sext16 (toU16 z) = z := by
  unfold sext16 toU16
  split <;> omega

theorem unpackX_packLParam (x y : Int) :
    unpackX (packLParam x y) = sext16 (toU16 x) := by
  unfold unpackX packLParam sext16 toU16
  split <;> split <;> omega

theorem unpackY_packLParam (x y : Int) :
    unpackY (packLParam x y) = sext16 (toU16 y) := by
  unfold unpackY packLParam sext16 toU16
  split <;> split <;> omega

/-! ## Structural helper lemmas about `forward`, `hook_proc` and the relay -/

theorem forward_post_isSome (dv dh : Int) (msg md : Nat) (cx cy : Int) :
    (forward dv dh msg md cx cy).2.isSome = (decide (dh ≠ 0) && forwardKind msg) := by
  have hpm : ∀ (k vk : Int) (d : Nat) (x y : Int),
      (post_mouse dh k vk d x y).isSome = decide (dh ≠ 0) := by
    intro k vk d x y
    unfold post_mouse
    by_cases hdh : dh = 0 <;> simp [hdh]
  unfold forward forwardKind
  split_ifs with h1 h2 h3 h4 h5 h6 h7 h8 h9 <;> simp_all [hpm]

theorem post_mouse_lp (dh k vk : Int) (d : Nat) (x y : Int) (wp lp : Nat)
    (h : post_mouse dh k vk d x y = some (wp, lp)) : lp = packLParam x y := by
  unfold post_mouse at h
  split_ifs at h
  simp only [Option.some.injEq, Prod.mk.injEq] at h
  exact h.2.symm

theorem forward_lp (dv dh : Int) (msg md : Nat) (cx cy : Int) (wp lp : Nat)
    (h : (forward dv dh msg md cx cy).2 = some (wp, lp)) :
    lp = packLParam cx cy := by
  unfold forward at h
  split_ifs at h <;>
    · dsimp only at h
      exact post_mouse_lp _ _ _ _ _ _ _ _ h

theorem hook_relay_lp (s : HookState) (code : Int) (ev : MouseEvent) (env : HitEnv)
    (wp lp : Nat) (h : (hook_proc s code ev env).2.relayPost = some (wp, lp)) :
    lp = packLParam (ev.ptX - env.wvOriginX) (ev.ptY - env.wvOriginY) := by
  unfold hook_proc at h
  dsimp only at h
  split_ifs at h <;>
    · dsimp only at h
      exact forward_lp _ _ _ _ _ _ _ _ h

theorem dispatch_mouse_coords (sa : Bool) (compPtr : Int) (wp lp : Nat)
    (c : RendererCall)
    (hc : c ∈ (dispatch_wnd_proc sa compPtr WM_MWP_MOUSE wp lp).calls) :
    callCoords c = some (unpackX lp, unpackY lp) := by
  unfold dispatch_wnd_proc at hc
  rw [if_neg (by norm_num [WM_MWP_MOUSE, WM_MWP_SETBOUNDS]), if_pos rfl] at hc
  dsimp only at hc
  split_ifs at hc with h1 h2
  · simp only [List.mem_append, List.mem_singleton] at hc
    rcases hc with rfl | rfl <;> rfl
  · simp only [List.nil_append, List.mem_singleton] at hc
    subst hc
    rfl
  · simp at hc

theorem dblclickStep_other (s : HookState) (ev : MouseEvent)
    (h : ev.msg ≠ WM_LBUTTONDOWN) : dblclickStep s ev = (s, ev.msg) := by
  unfold dblclickStep
  exact if_neg h

theorem dblclickStep_miss (s : HookState) (ev : MouseEvent)
    (h : ev.msg = WM_LBUTTONDOWN)
    (hcond : ¬(0 < ev.time - s.lastDownTime ∧
      ev.time - s.lastDownTime ≤ s.dblclickTime ∧
      (((ev.ptX - s.lastDownX).natAbs : Int) ≤ s.dblclickCx) ∧
      (((ev.ptY - s.lastDownY).natAbs : Int) ≤ s.dblclickCy))) :
    dblclickStep s ev =
      ({ s with lastDownTime := ev.time, lastDownX := ev.ptX, lastDownY := ev.ptY },
        WM_LBUTTONDOWN) := by
  unfold dblclickStep
  dsimp only
  split_ifs
  rfl

theorem dblclickStep_hit (s : HookState) (ev : MouseEvent)
    (h : ev.msg = WM_LBUTTONDOWN)
    (hcond : 0 < ev.time - s.lastDownTime ∧
      ev.time - s.lastDownTime ≤ s.dblclickTime ∧
      (((ev.ptX - s.lastDownX).natAbs : Int) ≤ s.dblclickCx) ∧
      (((ev.ptY - s.lastDownY).natAbs : Int) ≤ s.dblclickCy)) :
    dblclickStep s ev = ({ s with lastDownTime := 0 }, WM_LBUTTONDBLCLK) := by
  unfold dblclickStep
  dsimp only
  split_ifs
  rfl

theorem forward_ldown (dv dh : Int) (md : Nat) (cx cy : Int) :
    forward dv dh WM_LBUTTONDOWN md cx cy =
      (MK_LBUTTON, post_mouse dh MOUSE_LDOWN MK_LBUTTON 0 cx cy) := by
  norm_num [forward, WM_MOUSEMOVE, WM_LBUTTONDOWN]

theorem forward_lup (dv dh : Int) (md : Nat) (cx cy : Int) :
    forward dv dh WM_LBUTTONUP md cx cy =
      (0, post_mouse dh MOUSE_LUP MK_NONE 0 cx cy) := by
  norm_num [forward, WM_MOUSEMOVE, WM_LBUTTONDOWN, WM_LBUTTONUP]

/-- The main branch of `hook_proc`, exposed as an equation: session active,
hook initialized, cursor over the desktop, icon layer known and visible. -/
theorem hook_proc_main (s : HookState) (code : Int) (ev : MouseEvent) (env : HitEnv)
    (h1 : ¬ code < 0) (h2 : s.webviewHwnd ≠ 0) (h3 : s.sessionActive = true)
    (h4 : env.overDesktop = true) (h5 : s.syslistviewHwnd ≠ 0)
    (h6 : env.slvVisible = true) :
    hook_proc s code ev env =
      (let fr := forward s.dragVk s.dispatchHwnd ev.msg ev.mouseData
          (ev.ptX - env.wvOriginX) (ev.ptY - env.wvOriginY)
       let ds := dblclickStep { s with dragVk := fr.1 } ev
       (ds.1, ⟨fr.2, some (ds.2, slvWParam ds.2 env ev.mouseData, slvLParam ev env),
         .callNext⟩)) := by
  unfold hook_proc
  rw [if_neg (fun hc => hc.elim h1 h2), if_neg (by simp [h3]), if_neg (by simp [h4])]
  dsimp only
  rw [if_pos ⟨h5, h6⟩]

/-! ## C1: event routing by the hook -/

/-- C1 counterexample: the claimed exactly-one-destination ownership invariant
is false — a left press over the desktop with the icon layer visible is
forwarded both to the content relay and to the icon layer in the same hook
invocation. -/
theorem c1_single_destination_counterexample : ¬specClaimC1 := by
  intro h
  exact h hookReady 0 evPress envDesk ⟨by decide, by decide⟩

/-- C1 amended: routing is per-event, with no press-time ownership state.
When the session is active and the hook is initialized, an event whose
hit-test is not over the desktop is forwarded nowhere, and an event over the
desktop is posted to the icon layer exactly when the `SysListView32` handle is
set and visible, and simultaneously posted to the content relay exactly when
the dispatch window exists and the message kind is one `forward` recognizes. -/
theorem c1_per_event_dual_routing (s : HookState) (code : Int) (ev : MouseEvent)
    (env : HitEnv) (h1 : ¬ code < 0) (h2 : s.webviewHwnd ≠ 0)
    (h3 : s.sessionActive = true) :
    (env.overDesktop = false →
      (hook_proc s code ev env).2.relayPost = none ∧
      (hook_proc s code ev env).2.slvPost = none) ∧
    (env.overDesktop = true →
      (hook_proc s code ev env).2.slvPost.isSome =
        (decide (s.syslistviewHwnd ≠ 0) && env.slvVisible) ∧
      (hook_proc s code ev env).2.relayPost.isSome =
        (decide (s.dispatchHwnd ≠ 0) && forwardKind ev.msg)) := by
  constructor
  · intro hod
    unfold hook_proc
    rw [if_neg (fun hc => hc.elim h1 h2), if_neg (by simp [h3]), if_pos hod]
    exact ⟨rfl, rfl⟩
  · intro hod
    unfold hook_proc
    rw [if_neg (fun hc => hc.elim h1 h2), if_neg (by simp [h3]), if_neg (by simp [hod])]
    dsimp only
    constructor
    · split_ifs with hslv
      · simp [hslv.1, hslv.2]
      · have hrhs : (decide (s.syslistviewHwnd ≠ 0) && env.slvVisible) = false := by
          by_cases hs : s.syslistviewHwnd = 0
          · simp [hs]
          · cases hvis : env.slvVisible
            · simp
            · exact absurd ⟨hs, hvis⟩ hslv
        rw [hrhs]
        rfl
    · split_ifs <;>
        · dsimp only
          exact forward_post_isSome _ _ _ _ _ _

/-- Witness for C1's amended routing at a concrete press over the desktop. -/
theorem c1_per_event_dual_routing_witness :
    (hook_proc hookReady 0 evPress envDesk).2.slvPost.isSome =
      (decide (hookReady.syslistviewHwnd ≠ 0) && envDesk.slvVisible) ∧
    (hook_proc hookReady 0 evPress envDesk).2.relayPost.isSome =
      (decide (hookReady.dispatchHwnd ≠ 0) && forwardKind evPress.msg) :=
  (c1_per_event_dual_routing hookReady 0 evPress envDesk (by decide) (by decide) rfl).2 rfl

/-! ## C6: coordinate translation -/

/-- C6 counterexample: exact translation fails outside the signed 16-bit
range — at surface origin (0,0), size 40000×100, the in-bounds screen point
(32768, 0) is delivered as content-local x = −32768, not 32768. -/
theorem c6_exact_translation_counterexample : ¬specClaimC6 := by
  intro h
  exact absurd
    (h 0 0 40000 100 32768 0 (by norm_num) (by norm_num) (by norm_num) (by norm_num)
      (by norm_num) (by norm_num))
    (by decide)

/-- C6 amended: whenever the hook posts a relay message, the posted LPARAM
already carries the hook-side translated coordinates `(sx − ox, sy − oy)`
(translation at forward time), and — provided those offsets fit in the signed
16-bit range — every renderer call the dispatch procedure makes for that
message carries exactly those coordinates, with no dispatch-time translation. -/
theorem c6_translation_in_range (s : HookState) (code : Int) (ev : MouseEvent)
    (env : HitEnv) (sa : Bool) (compPtr : Int) (wp lp : Nat)
    (hrelay : (hook_proc s code ev env).2.relayPost = some (wp, lp))
    (hx1 : -32768 ≤ ev.ptX - env.wvOriginX) (hx2 : ev.ptX - env.wvOriginX ≤ 32767)
    (hy1 : -32768 ≤ ev.ptY - env.wvOriginY) (hy2 : ev.ptY - env.wvOriginY ≤ 32767) :
    lp = packLParam (ev.ptX - env.wvOriginX) (ev.ptY - env.wvOriginY) ∧
    ∀ c ∈ (dispatch_wnd_proc sa compPtr WM_MWP_MOUSE wp lp).calls,
      callCoords c = some (ev.ptX - env.wvOriginX, ev.ptY - env.wvOriginY) := by
  have hlp := hook_relay_lp s code ev env wp lp hrelay
  refine ⟨hlp, fun c hc => ?_⟩
  rw [dispatch_mouse_coords sa compPtr wp lp c hc, hlp, unpackX_packLParam,
    unpackY_packLParam, sext16_toU16 _ hx1 hx2, sext16_toU16 _ hy1 hy2]

/-- Witness for C6 on a concrete move at (300, 200) with surface origin (0, 0). -/
theorem c6_translation_in_range_witness :
    callCoords (RendererCall.mouseInput MOUSE_MOVE 0 0 300 200) =
      some (evMove.ptX - envDesk.wvOriginX, evMove.ptY - envDesk.wvOriginY) :=
  (c6_translation_in_range readyState 0 evMove envDesk true 1
      (packWParam MOUSE_MOVE 0 0) (packLParam 300 200) (by decide) (by decide)
      (by decide) (by decide) (by decide)).2
    (RendererCall.mouseInput MOUSE_MOVE 0 0 300 200) (by decide)

/-! ## C4: detection retry behaviour -/

/-- C4 counterexample: with the container absent from the first four search
passes and present only at the fifth, detection does not succeed with that
container — there is no retry, so it falls back to Progman after one pass. -/
theorem c4_retry_counterexample : ¬specClaimC4 := by
  intro h
  obtain ⟨r, t, hok, htp⟩ :=
    h detectEnvAbsent 77 (by decide) (by decide) (by decide)
      (fun k hk1 hk4 => by
        have hk : k ≠ 5 := by omega
        simp [detectEnvAbsent, searchContainer, hk])
      (by decide)
  have hdet : detect_desktop detectEnvAbsent =
      Except.ok ((⟨10, 4, 10, 0, 800, 600⟩ : DesktopDetection),
        (⟨[⟨0x052C, 0x0D, 1⟩], [150], 1⟩ : DetectTrace)) := rfl
  rw [hdet] at hok
  simp only [Except.ok.injEq, Prod.mk.injEq] at hok
  rw [← hok.1] at htp
  simp at htp

/-- C4 amended: detection sends a single spawn signal, sleeps 150ms once, and
performs exactly one container-search pass; when that pass finds no container
it falls back to Progman immediately (no retry), otherwise it uses the found
container. -/
theorem c4_single_attempt_fallback (env : DetectEnv) (h : env.progman ≠ 0) :
    ∃ r t, detect_desktop env = Except.ok (r, t) ∧
      t.searchAttempts = 1 ∧ t.sleepsMs = [150] ∧
      ((searchContainer (env.shell 1)).1 = 0 → r.targetParent = env.progman) ∧
      ((searchContainer (env.shell 1)).1 ≠ 0 →
        r.targetParent = (searchContainer (env.shell 1)).1) := by
  unfold detect_desktop
  rw [if_neg h]
  exact ⟨_, _, rfl, rfl, rfl, fun hz => by simp [hz], fun hnz => by simp [hnz]⟩

/-- Witness for C4's amended behaviour on the concrete absent-container
environment. -/
theorem c4_single_attempt_fallback_witness :
    ∃ r t, detect_desktop detectEnvAbsent = Except.ok (r, t) ∧
      t.searchAttempts = 1 ∧ t.sleepsMs = [150] ∧
      ((searchContainer (detectEnvAbsent.shell 1)).1 = 0 →
        r.targetParent = detectEnvAbsent.progman) ∧
      ((searchContainer (detectEnvAbsent.shell 1)).1 ≠ 0 →
        r.targetParent = (searchContainer (detectEnvAbsent.shell 1)).1) :=
  c4_single_attempt_fallback detectEnvAbsent (by decide)

/-! ## C5: spawn-signal parameter variants -/

/-- C5 counterexample: a detection run does not send all three documented
parameter variants — the variant `(0x0D, 0)` is never sent. -/
theorem c5_spawn_variants_counterexample : ¬specClaimC5 := by
  intro h
  have hdet : detect_desktop detectEnvAbsent =
      Except.ok ((⟨10, 4, 10, 0, 800, 600⟩ : DesktopDetection),
        (⟨[⟨0x052C, 0x0D, 1⟩], [150], 1⟩ : DetectTrace)) := rfl
  exact absurd (h detectEnvAbsent _ _ hdet).1 (by decide)

/-- C5 amended: every successful detection run sends exactly one shell-layer
spawn message — id `0x052C` with the single parameter variant `(0x0D, 1)`. -/
theorem c5_single_spawn_variant (env : DetectEnv) (h : env.progman ≠ 0) :
    ∃ r t, detect_desktop env = Except.ok (r, t) ∧
      t.spawnMsgs = [{ msgId := 0x052C, wparam := 0x0D, lparam := 1 }] := by
  unfold detect_desktop
  rw [if_neg h]
  exact ⟨_, _, rfl, rfl⟩

/-- Witness for C5's amended spawn trace on a concrete environment. -/
theorem c5_single_spawn_variant_witness :
    ∃ r t, detect_desktop detectEnvAbsent = Except.ok (r, t) ∧
      t.spawnMsgs = [{ msgId := 0x052C, wparam := 0x0D, lparam := 1 }] :=
  c5_single_spawn_variant detectEnvAbsent (by decide)

/-! ## C2: double-click synthesis for the icon layer -/

/-- C2 counterexample: two icon-layer presses within the distance thresholds
and with inter-press time 0 (same millisecond tick, hence ≤ the time
threshold) are both forwarded as plain presses — the `dt > 0` guard rejects a
zero inter-press time, so the second press is not reclassified. -/
theorem c2_doubleclick_counterexample : ¬specClaimC2 := by
  intro h
  have h2 := h hookReady evPress evPressSame envDesk (by decide) rfl (by decide) rfl rfl
    rfl rfl rfl (by decide) (by decide) (by decide) (by decide) (by decide)
  exact absurd h2 (by decide)

/-- C2 amended: for two left presses routed to the icon layer with positive
inter-press time at most the double-click time threshold and per-axis
distances at most the per-axis distance thresholds (half the platform
`SM_CXDOUBLECLK`/`SM_CYDOUBLECLK` metrics, as cached at hook startup), the
press/release/press/release sequence forwards to the icon layer exactly one
press, one double-click press, and the two releases. -/
theorem c2_doubleclick_synthesis (s : HookState) (e1 er1 e2 er2 : MouseEvent)
    (env : HitEnv)
    (hwv : s.webviewHwnd ≠ 0) (hsess : s.sessionActive = true)
    (hslv : s.syslistviewHwnd ≠ 0) (hover : env.overDesktop = true)
    (hvis : env.slvVisible = true)
    (hm1 : e1.msg = WM_LBUTTONDOWN) (hmr1 : er1.msg = WM_LBUTTONUP)
    (hm2 : e2.msg = WM_LBUTTONDOWN) (hmr2 : er2.msg = WM_LBUTTONUP)
    (hfresh : s.lastDownTime = 0) (ht1 : s.dblclickTime < e1.time)
    (ht12 : e1.time < e2.time) (hdt : e2.time - e1.time ≤ s.dblclickTime)
    (hdx : ((e2.ptX - e1.ptX).natAbs : Int) ≤ s.dblclickCx)
    (hdy : ((e2.ptY - e1.ptY).natAbs : Int) ≤ s.dblclickCy) :
    slvMsgsOf (runHook s
        [(0, e1, env), (0, er1, env), (0, e2, env), (0, er2, env)]).2 =
      [WM_LBUTTONDOWN, WM_LBUTTONUP, WM_LBUTTONDBLCLK, WM_LBUTTONUP] := by
  have st1 : hook_proc s 0 e1 env =
      (pressState s MK_LBUTTON e1.time e1.ptX e1.ptY,
        ⟨post_mouse s.dispatchHwnd MOUSE_LDOWN MK_LBUTTON 0 (e1.ptX - env.wvOriginX)
            (e1.ptY - env.wvOriginY),
          some (WM_LBUTTONDOWN, slvWParam WM_LBUTTONDOWN env e1.mouseData,
            slvLParam e1 env),
          .callNext⟩) := by
    rw [hook_proc_main s 0 e1 env (by norm_num) hwv hsess hover hslv hvis]
    dsimp only
    rw [hm1, forward_ldown]
    dsimp only
    rw [dblclickStep_miss _ _ hm1 (by
      dsimp only
      intro hcond
      have hle := hcond.2.1
      omega)]
    rfl
  have st2 : hook_proc (pressState s MK_LBUTTON e1.time e1.ptX e1.ptY) 0 er1 env =
      (pressState s 0 e1.time e1.ptX e1.ptY,
        ⟨post_mouse s.dispatchHwnd MOUSE_LUP MK_NONE 0 (er1.ptX - env.wvOriginX)
            (er1.ptY - env.wvOriginY),
          some (WM_LBUTTONUP, slvWParam WM_LBUTTONUP env er1.mouseData,
            slvLParam er1 env),
          .callNext⟩) := by
    rw [hook_proc_main (pressState s MK_LBUTTON e1.time e1.ptX e1.ptY) 0 er1 env
      (by norm_num) (by exact hwv) (by exact hsess) hover (by exact hslv) hvis]
    dsimp only [pressState]
    rw [hmr1, forward_lup]
    dsimp only
    rw [dblclickStep_other _ _ (by rw [hmr1]; decide), hmr1]
  have st3 : hook_proc (pressState s 0 e1.time e1.ptX e1.ptY) 0 e2 env =
      (pressState s MK_LBUTTON 0 e1.ptX e1.ptY,
        ⟨post_mouse s.dispatchHwnd MOUSE_LDOWN MK_LBUTTON 0 (e2.ptX - env.wvOriginX)
            (e2.ptY - env.wvOriginY),
          some (WM_LBUTTONDBLCLK, slvWParam WM_LBUTTONDBLCLK env e2.mouseData,
            slvLParam e2 env),
          .callNext⟩) := by
    rw [hook_proc_main (pressState s 0 e1.time e1.ptX e1.ptY) 0 e2 env
      (by norm_num) (by exact hwv) (by exact hsess) hover (by exact hslv) hvis]
    dsimp only [pressState]
    rw [hm2, forward_ldown]
    dsimp only
    rw [dblclickStep_hit _ _ hm2 (by
      dsimp only
      exact ⟨by omega, hdt, hdx, hdy⟩)]
  have st4 : hook_proc (pressState s MK_LBUTTON 0 e1.ptX e1.ptY) 0 er2 env =
      (pressState s 0 0 e1.ptX e1.ptY,
        ⟨post_mouse s.dispatchHwnd MOUSE_LUP MK_NONE 0 (er2.ptX - env.wvOriginX)
            (er2.ptY - env.wvOriginY),
          some (WM_LBUTTONUP, slvWParam WM_LBUTTONUP env er2.mouseData,
            slvLParam er2 env),
          .callNext⟩) := by
    rw [hook_proc_main (pressState s MK_LBUTTON 0 e1.ptX e1.ptY) 0 er2 env
      (by norm_num) (by exact hwv) (by exact hsess) hover (by exact hslv) hvis]
    dsimp only [pressState]
    rw [hmr2, forward_lup]
    dsimp only
    rw [dblclickStep_other _ _ (by rw [hmr2]; decide), hmr2]
  simp only [runHook, st1, st2, st3, st4]
  rfl

/-- Witness for C2's amended double-click synthesis: presses at (100,100)
t=5000 and (101,101) t=5200 with thresholds 500ms / 2px, releases between. -/
theorem c2_doubleclick_synthesis_witness :
    slvMsgsOf (runHook hookReady
        [(0, evPress, envDesk), (0, evRelA, envDesk), (0, evPressB, envDesk),
          (0, evRelB, envDesk)]).2 =
      [WM_LBUTTONDOWN, WM_LBUTTONUP, WM_LBUTTONDBLCLK, WM_LBUTTONUP] :=
  c2_doubleclick_synthesis hookReady evPress evRelA evPressB evRelB envDesk
    (by decide) rfl (by decide) rfl rfl rfl rfl rfl rfl rfl (by decide) (by decide)
    (by decide) (by decide) (by decide)

/-! ## C9: the hook callback never consumes an event -/

/-- C9: the low-level mouse hook callback never consumes any pointer event —
for every state and every event it returns the result of chaining to the next
hook (`CallNextHookEx`), so default OS delivery is never prevented. -/
theorem c9_hook_never_consumes (s : HookState) (code : Int) (ev : MouseEvent)
    (env : HitEnv) : (hook_proc s code ev env).2.result = HookResult.callNext := by
  unfold hook_proc
  split
  · rfl
  split
  · rfl
  split
  · rfl
  dsimp only
  split <;> rfl

/-! ## C3: session suppression -/

/-- C3: while the session is inactive, the hook produces zero relay messages,
posts nothing to the icon layer, leaves its state untouched and passes every
event through; the dispatch window procedure clears the session flag on a
`WTS_SESSION_LOCK` notification and sets it on `WTS_SESSION_UNLOCK`. -/
theorem c3_session_suppression :
    (∀ (s : HookState) (code : Int) (ev : MouseEvent) (env : HitEnv),
      s.sessionActive = false →
      hook_proc s code ev env = (s, ⟨none, none, .callNext⟩)) ∧
    (∀ (sa : Bool) (compPtr : Int) (lp : Nat),
      (dispatch_wnd_proc sa compPtr WM_WTSSESSION_CHANGE WTS_SESSION_LOCK lp).sessionActive
          = false ∧
      (dispatch_wnd_proc sa compPtr WM_WTSSESSION_CHANGE WTS_SESSION_UNLOCK lp).sessionActive
          = true ∧
      (dispatch_wnd_proc sa compPtr WM_WTSSESSION_CHANGE WTS_SESSION_LOCK lp).calls = [] ∧
      (dispatch_wnd_proc sa compPtr WM_WTSSESSION_CHANGE WTS_SESSION_UNLOCK lp).calls = []) := by
  constructor
  · intro s code ev env hsa
    unfold hook_proc
    split_ifs <;> simp_all
  · intro sa compPtr lp
    unfold dispatch_wnd_proc
    norm_num [WM_MWP_SETBOUNDS, WM_MWP_MOUSE, WM_WTSSESSION_CHANGE, WTS_SESSION_LOCK,
      WTS_SESSION_UNLOCK]

/-- Witness for C3 at the concrete locked state and a concrete press. -/
theorem c3_session_suppression_witness :
    hook_proc { hookReady with sessionActive := false } 0 evPress envDesk =
      ({ hookReady with sessionActive := false }, ⟨none, none, .callNext⟩) ∧
    (dispatch_wnd_proc true 1 WM_WTSSESSION_CHANGE WTS_SESSION_LOCK 0).sessionActive = false ∧
    (dispatch_wnd_proc false 1 WM_WTSSESSION_CHANGE WTS_SESSION_UNLOCK 0).sessionActive = true :=
  ⟨c3_session_suppression.1 _ 0 evPress envDesk rfl,
   (c3_session_suppression.2 true 1 0).1,
   (c3_session_suppression.2 false 1 0).2.1⟩

/-! ## C7: teardown idempotence -/

/-- C7: teardown is idempotent — the second call changes nothing and performs
no operations; when the first effective call has both handles, the end state
has the icon layer shown and the hook uninstalled. -/
theorem c7_teardown_idempotent (s : TeardownState) :
    restore_desktop_icons_and_unhook ((restore_desktop_icons_and_unhook s).1) =
      ((restore_desktop_icons_and_unhook s).1, ([] : List TeardownOp)) ∧
    (s.iconsRestored = false → s.slvHwnd ≠ 0 → s.hookHandle ≠ 0 →
      (restore_desktop_icons_and_unhook s).1.iconLayerVisible = true ∧
      (restore_desktop_icons_and_unhook s).1.hookInstalled = false) := by
  unfold restore_desktop_icons_and_unhook
  split_ifs <;> simp_all

/-- Witness for C7 from a live state with both handles present. -/
theorem c7_teardown_idempotent_witness :
    restore_desktop_icons_and_unhook
        ((restore_desktop_icons_and_unhook ⟨false, 7, 9, false, true⟩).1) =
      ((restore_desktop_icons_and_unhook ⟨false, 7, 9, false, true⟩).1,
        ([] : List TeardownOp)) ∧
    (restore_desktop_icons_and_unhook ⟨false, 7, 9, false, true⟩).1.iconLayerVisible = true ∧
    (restore_desktop_icons_and_unhook ⟨false, 7, 9, false, true⟩).1.hookInstalled = false :=
  ⟨(c7_teardown_idempotent ⟨false, 7, 9, false, true⟩).1,
   (c7_teardown_idempotent ⟨false, 7, 9, false, true⟩).2 rfl (by decide) (by decide)⟩

/-! ## C8: leave-event corrector -/

/-- C8: for every leave event the corrector intercepts — marked target without
the explicit-leave marker: replaced by `WM_NULL`; marked target with the
marker: let through and the marker consumed; unmarked window: untouched. -/
theorem c8_leave_corrector (code : Int) (m : LeaveMsg) (props : WndProps)
    (hc : 0 ≤ code) (hm : m.message = WM_MOUSELEAVE) :
    (props.target = true → props.explicitLeave = false →
      mouseleave_hook_proc code false m props =
        ({ m with message := WM_NULL }, props, .callNext)) ∧
    (props.target = true → props.explicitLeave = true →
      mouseleave_hook_proc code false m props =
        (m, { props with explicitLeave := false }, .callNext)) ∧
    (props.target = false →
      mouseleave_hook_proc code false m props = (m, props, .callNext)) := by
  unfold mouseleave_hook_proc
  split_ifs <;> simp_all

/-- Witness for C8 on all three marker configurations at a concrete window. -/
theorem c8_leave_corrector_witness :
    mouseleave_hook_proc 0 false ⟨5, WM_MOUSELEAVE⟩ ⟨true, false⟩ =
      (⟨5, WM_NULL⟩, ⟨true, false⟩, .callNext) ∧
    mouseleave_hook_proc 0 false ⟨5, WM_MOUSELEAVE⟩ ⟨true, true⟩ =
      (⟨5, WM_MOUSELEAVE⟩, ⟨true, false⟩, .callNext) ∧
    mouseleave_hook_proc 0 false ⟨5, WM_MOUSELEAVE⟩ ⟨false, true⟩ =
      (⟨5, WM_MOUSELEAVE⟩, ⟨false, true⟩, .callNext) :=
  ⟨(c8_leave_corrector 0 ⟨5, WM_MOUSELEAVE⟩ ⟨true, false⟩ (by decide) rfl).1 rfl rfl,
   (c8_leave_corrector 0 ⟨5, WM_MOUSELEAVE⟩ ⟨true, true⟩ (by decide) rfl).2.1 rfl rfl,
   (c8_leave_corrector 0 ⟨5, WM_MOUSELEAVE⟩ ⟨false, true⟩ (by decide) rfl).2.2 rfl⟩

/-! ## C10: relay bit-packing round trip -/

/-- C10: for kinds and button masks representable in 16 bits, 32-bit data and
coordinates in the signed 16-bit range, unpacking in the dispatch procedure
recovers exactly what `post_mouse` packed; out-of-range coordinates are
truncated to 16 bits (the unpacked value is congruent mod 2^16 and lands in
the signed 16-bit range). -/
theorem c10_relay_pack_roundtrip (kind vk : Int) (data : Nat) (x y : Int) :
    (0 ≤ kind → kind < 65536 → 0 ≤ vk → vk < 65536 → data < 4294967296 →
      -32768 ≤ x → x ≤ 32767 → -32768 ≤ y → y ≤ 32767 →
      unpackKind (packWParam kind vk data) = kind ∧
      unpackVk (packWParam kind vk data) = vk ∧
      unpackData (packWParam kind vk data) = data ∧
      unpackX (packLParam x y) = x ∧
      unpackY (packLParam x y) = y) ∧
    (unpackX (packLParam x y) % 65536 = x % 65536 ∧
     unpackY (packLParam x y) % 65536 = y % 65536 ∧
     -32768 ≤ unpackX (packLParam x y) ∧ unpackX (packLParam x y) ≤ 32767 ∧
     -32768 ≤ unpackY (packLParam x y) ∧ unpackY (packLParam x y) ≤ 32767) := by
  constructor
  · intro hk1 hk2 hv1 hv2 hd hx1 hx2 hy1 hy2
    refine ⟨?_, ?_, ?_, ?_, ?_⟩ <;>
      · simp only [unpackKind, unpackVk, unpackData, unpackX, unpackY, packWParam,
          packLParam, toU16, sext16]
        repeat' split
        all_goals omega
  · refine ⟨?_, ?_, ?_, ?_, ?_, ?_⟩ <;>
      · simp only [unpackX, unpackY, packLParam, toU16, sext16]
        repeat' split
        all_goals omega

/-- Witness for C10 at a concrete in-range tuple. -/
theorem c10_relay_pack_roundtrip_witness :
    unpackKind (packWParam MOUSE_LDOWN MK_LBUTTON 7) = MOUSE_LDOWN ∧
    unpackVk (packWParam MOUSE_LDOWN MK_LBUTTON 7) = MK_LBUTTON ∧
    unpackData (packWParam MOUSE_LDOWN MK_LBUTTON 7) = 7 ∧
    unpackX (packLParam (-5) 32767) = -5 ∧
    unpackY (packLParam (-5) 32767) = 32767 :=
  (c10_relay_pack_roundtrip MOUSE_LDOWN MK_LBUTTON 7 (-5) 32767).1
    (by norm_num [MOUSE_LDOWN]) (by norm_num [MOUSE_LDOWN])
    (by norm_num [MK_LBUTTON]) (by norm_num [MK_LBUTTON]) (by norm_num)
    (by norm_num) (by norm_num) (by norm_num) (by norm_num)

end WindowLayer
